import Mathlib

/-!
Verification of the speech-gateway / dialogue-gateway services
(`src/server/app.py`, `src/server/rasa_server.py`,
`src/server/actions/actions.py`).

The Flask handlers are shallowly embedded as pure Lean functions over an
explicit server state.  External backends (the OpenAI speech call, the
Eleven Labs `generate` call, the Rasa agent) are passed in as oracle
values describing what the backend would do (return bytes or raise), so
the routing, fallback and error-conversion logic of the handlers is the
executable content being verified.
-/

namespace BevPro

/-! ## Python / JSON scalar values -/

/-- A JSON scalar as it arrives in a Flask `request.json` field.  `jnull`
models both JSON `null` and an absent field (Python `None` from
`dict.get`).  Numeric payloads are modelled as integers; the decimal
printing of Python floats adds only lexical detail that none of the
handlers depend on. -/
inductive JVal where
  | jnull
  | jbool (b : Bool)
  | jnum (n : Int)
  | jstr (s : String)
  deriving DecidableEq

/-- The decimal digit character for `d < 10`, i.e. `'0'` shifted by `d`. -/
def digitChar (d : Nat) : Char := Char.ofNat (48 + d)

/-- The numeric value of a decimal digit character. -/
def digitVal (c : Char) : Nat := c.toNat - 48

/-- Decimal digit printing, structurally recursive on a fuel bound so
that it reduces in the kernel; `fuel = 0` is never reached when the
fuel exceeds the argument (each division by 10 strictly decreases). -/
def natDigitsAux : Nat → Nat → List Char
  | 0, _ => []
  | fuel + 1, n =>
    if n < 10 then [digitChar n]
    else natDigitsAux fuel (n / 10) ++ [digitChar (n % 10)]

/-- Decimal digit string of a natural number, most significant digit
first, as printed by Python `str` on a non-negative `int`. -/
def natDigits (n : Nat) : List Char := natDigitsAux (n + 1) n

/-- Python `str` of an `int`: decimal digits, with a leading `-` for
negative values. -/
def intStr : Int → String
  | .ofNat n => ⟨natDigits n⟩
  | .negSucc n => ⟨'-' :: natDigits (n + 1)⟩

/-- Python `str` of a request-field value: `None`, `True` / `False`,
decimal integers, and strings unchanged. -/
def pyStr : JVal → String
  | .jnull => "None"
  | .jbool true => "True"
  | .jbool false => "False"
  | .jnum n => intStr n
  | .jstr s => s

/-- Lower-case an ASCII letter, leaving other characters unchanged. -/
def lowerChar (c : Char) : Char :=
  if 'A' ≤ c ∧ c ≤ 'Z' then Char.ofNat (c.toNat + 32) else c

/-- Python `str.lower` on the ASCII fragment: lower-cases each
character. -/
def pyLower (s : String) : String := ⟨s.toList.map lowerChar⟩

/-- Python truthiness of an optional string (`None` and `""` are falsy):
this is the test applied by `if eleven_labs_key:`, `if api_key:` and
`if drink:` in the source. -/
def strTruthy : Option String → Bool
  | none => false
  | some s => s ≠ ""

/-- Value of a list of decimal digit characters, most significant
first. -/
def digitsToNat (l : List Char) : Nat :=
  l.foldl (fun a c => 10 * a + digitVal c) 0

/-- Whitespace stripped by Python `float` before parsing. -/
def isPyWs (c : Char) : Bool :=
  c = ' ' || c = '\t' || c = '\n' || c = '\r'

/-- Strip leading and trailing whitespace from a character list. -/
def stripWs (cs : List Char) : List Char :=
  ((cs.dropWhile isPyWs).reverse.dropWhile isPyWs).reverse

/-- Python `str.strip` (no arguments): drop leading and trailing
whitespace. -/
def pyStrip (s : String) : String := ⟨stripWs s.toList⟩

/-- An exact decimal fraction `m / 10 ^ e`: the value denoted by a
decimal float literal.  Python floats produced by `float(...)` in
`get_voice_settings` are modelled by the exact decimal they were parsed
from. -/
structure Dec10 where
  m : Int
  e : Nat
  deriving DecidableEq

/-- The rational value of a decimal fraction. -/
def Dec10.val (d : Dec10) : ℚ := (d.m : ℚ) / (10 : ℚ) ^ d.e

/-- What Python `float(s)` can produce from a string: a finite value
(kept as the exact decimal it was parsed from), an infinity, or a
NaN. -/
inductive PyFloat where
  | finite (d : Dec10)
  | inf (neg : Bool)
  | nan
  deriving DecidableEq

/-- The rational value of a parsed float when it is finite. -/
def PyFloat.val? : PyFloat → Option ℚ
  | .finite d => some d.val
  | .inf _ => none
  | .nan => none

/-- Remove the underscore separators of a Python numeric literal. -/
def stripUnderscores (cs : List Char) : List Char := cs.filter fun c => c ≠ '_'

/-- Characters that do not open the exponent part of a float literal. -/
def notExpChar (c : Char) : Bool := !(c == 'e' || c == 'E')

/-- Characters that are not the decimal point. -/
def notDotChar (c : Char) : Bool := !(c == '.')

/-- The tail of a Python `digitpart` after its first digit:
`(["_"] digit)*` — every underscore must sit between two digits. -/
def digitPartRest : List Char → Bool
  | [] => true
  | c :: cs =>
    if c = '_' then
      match cs with
      | [] => false
      | c2 :: cs2 => c2.isDigit && digitPartRest cs2
    else c.isDigit && digitPartRest cs

/-- A Python `digitpart`: `digit (["_"] digit)*`. -/
def isDigitPart : List Char → Bool
  | [] => false
  | c :: cs => c.isDigit && digitPartRest cs

/-- Numeric value of a digit part, underscores removed. -/
def digitPartVal (cs : List Char) : Nat := digitsToNat (stripUnderscores cs)

/-- Assemble the finite value `±M / 10 ^ f · 10 ^ E` of a parsed
literal with mantissa digits `M`, `f` fraction digits and exponent
`E`, normalised to a `Dec10` with a natural denominator exponent. -/
def mkFinite (neg : Bool) (M f : Nat) (E : Int) : PyFloat :=
  let sgnM : Int := if neg then -(M : Int) else (M : Int)
  if (f : Int) ≤ E then .finite ⟨sgnM * 10 ^ (E - (f : Int)).toNat, 0⟩
  else .finite ⟨sgnM, ((f : Int) - E).toNat⟩

/-- The numeric-literal part of Python `float`, after whitespace, sign
and the `inf` / `nan` words have been handled: parse
`digitpart ["." [digitpart]] | "." digitpart`, with an optional
`(e|E) [sign] digitpart` exponent, where each `digitpart` allows
single underscore separators between digits.  `neg` is the sign
already stripped from the front. -/
def pyFloatCore (neg : Bool) (cs : List Char) : Option PyFloat :=
  let mant := cs.takeWhile notExpChar
  let erest := cs.dropWhile notExpChar
  let ip := mant.takeWhile notDotChar
  let fp := (mant.dropWhile notDotChar).tail
  let fpd := (stripUnderscores fp).length
  let mantOk : Bool :=
    if (mant.dropWhile notDotChar).isEmpty then isDigitPart ip
    else (ip.isEmpty || isDigitPart ip) && (fp.isEmpty || isDigitPart fp) &&
         !(ip.isEmpty && fp.isEmpty)
  let M : Nat := digitPartVal ip * 10 ^ fpd + digitPartVal fp
  match erest with
  | [] => if mantOk then some (mkFinite neg M fpd 0) else none
  | _ :: ex =>
    let eneg : Bool := ex.head? = some '-'
    let ed := if ex.head? = some '-' ∨ ex.head? = some '+' then ex.tail else ex
    if mantOk && isDigitPart ed then
      some (mkFinite neg M fpd
        (if eneg then -(digitPartVal ed : Int) else (digitPartVal ed : Int)))
    else none

/-- Python `float(s)`: strip surrounding whitespace and an optional
sign, accept `inf` / `infinity` / `nan` case-insensitively, and
otherwise parse a decimal literal with optional fraction, exponent and
underscore separators (`pyFloatCore`).  Returns `none` exactly where
Python raises `ValueError`.  Parsed finite values are kept as exact
decimal fractions: the IEEE rounding of the result to a binary double
(and the saturation of astronomically large literals) is not modelled,
as no stored setting of this service depends on it. -/
def pyFloat (s : String) : Option PyFloat :=
  let cs0 := stripWs s.toList
  let neg : Bool := cs0.head? = some '-'
  let cs := if cs0.head? = some '-' ∨ cs0.head? = some '+' then cs0.tail else cs0
  let low := cs.map lowerChar
  if low = "inf".toList ∨ low = "infinity".toList then some (.inf neg)
  else if low = "nan".toList then some .nan
  else pyFloatCore neg cs

/-! ## Server state (`src/server/app.py`) -/

/-- The environment variables the speech gateway reads and writes
(`os.environ` / `os.getenv`); `none` is an unset variable. -/
structure Env where
  voiceProvider : Option String
  voiceEnabled : Option String
  voicePitch : Option String
  voiceRate : Option String
  voiceVolume : Option String
  elevenLabsApiKey : Option String
  deriving DecidableEq

/-- Process state of `app.py`.  `elevenLabsKeyVar` is the module-level
variable `eleven_labs_key = os.getenv('ELEVEN_LABS_API_KEY')` assigned
once at import (app.py line 22); `libApiKey` is the key most recently
passed to the Eleven Labs library's `set_api_key`. -/
structure ServerState where
  env : Env
  elevenLabsKeyVar : Option String
  libApiKey : Option String
  deriving DecidableEq

/-- The state right after importing `app.py` with environment `e`: the
module variable snapshots the key, and `set_api_key` was called with it
when truthy (app.py lines 22-31). -/
def initialState (e : Env) : ServerState :=
  { env := e,
    elevenLabsKeyVar := e.elevenLabsApiKey,
    libApiKey := if strTruthy e.elevenLabsApiKey then e.elevenLabsApiKey else none }

/-! ## GET /api/settings/voice (`get_voice_settings`, app.py 46-62) -/

/-- The `config` object of a successful settings fetch. -/
structure VoiceConfig where
  provider : String
  voiceEnabled : Bool
  pitch : PyFloat
  rate : PyFloat
  volume : PyFloat
  hasElevenLabs : Bool
  deriving DecidableEq

/-- Response of the GET handler: `ok` is HTTP 200 with the config,
`err` an HTTP error status with a JSON `error` field. -/
inductive GetResp where
  | ok (config : VoiceConfig)
  | err (status : Nat) (error : String)
  deriving DecidableEq

/-- `get_voice_settings` (app.py 46-62): reads each setting from the
environment with its default; `float(...)` on pitch/rate/volume raises
into the `except` clause, which answers 500.  `hasElevenLabs` is
`bool(eleven_labs_key)` — the module-level variable, not the
environment. -/
def get_voice_settings (st : ServerState) : GetResp :=
  match pyFloat (st.env.voicePitch.getD "1.0"),
        pyFloat (st.env.voiceRate.getD "1.0"),
        pyFloat (st.env.voiceVolume.getD "1.0") with
  | some pitch, some rate, some volume =>
      .ok { provider := st.env.voiceProvider.getD "elevenlabs",
            voiceEnabled := pyLower (st.env.voiceEnabled.getD "true") = "true",
            pitch := pitch, rate := rate, volume := volume,
            hasElevenLabs := strTruthy st.elevenLabsKeyVar }
  | _, _, _ => .err 500 "Failed to fetch voice settings"

/-! ## POST /api/settings/voice (`update_voice_settings`, app.py 64-108) -/

/-- The request body fields, each via `data.get(...)`.  `provider` and
`apiKey` are compared / stripped as strings by the handler, so they are
modelled as optional strings; the remaining fields are arbitrary JSON
scalars. -/
structure UpdateReq where
  provider : Option String
  voiceEnabled : JVal
  pitch : JVal
  rate : JVal
  volume : JVal
  apiKey : Option String
  deriving DecidableEq

/-- Response of the POST settings handler: `ok` is HTTP 200 echoing the
submitted values (with `hasElevenLabs` from the stale module variable);
`err` is the `except` clause's 400 with `error` and `message` fields. -/
inductive UpdateResp where
  | ok (provider : String) (voiceEnabled pitch rate volume : JVal) (hasElevenLabs : Bool)
  | err (status : Nat) (error message : String)
  deriving DecidableEq

/-- The key block of `update_voice_settings` (app.py 80-84): when the
provider is `elevenlabs` and the submitted key is truthy, a
whitespace-only key raises `ValueError` (before any write); otherwise
the key is written to the environment and to the library.  `set_api_key`
is modelled as total. -/
def applyKeyUpdate (st : ServerState) (provider : String) (apiKey : Option String) :
    Except String ServerState :=
  if provider = "elevenlabs" ∧ strTruthy apiKey then
    let k := apiKey.getD ""
    if pyStrip k = "" then .error "Invalid Eleven Labs API key"
    else .ok { st with env := { st.env with elevenLabsApiKey := some k }, libApiKey := some k }
  else .ok st

/-- `update_voice_settings` (app.py 64-108): rejects a provider outside
`['elevenlabs', 'webspeech']` with 400 (state untouched), applies the
key block, then stores `provider`, `str(voice_enabled).lower()` and
`str(...)` of pitch/rate/volume in the environment, echoing the raw
submitted values in the 200 body. -/
def update_voice_settings (st : ServerState) (req : UpdateReq) : UpdateResp × ServerState :=
  match req.provider with
  | some p =>
    if p = "elevenlabs" ∨ p = "webspeech" then
      match applyKeyUpdate st p req.apiKey with
      | .error m => (.err 400 "Failed to update voice settings" m, st)
      | .ok st1 =>
        (.ok p req.voiceEnabled req.pitch req.rate req.volume (strTruthy st.elevenLabsKeyVar),
         { st1 with env := { st1.env with
             voiceProvider := some p,
             voiceEnabled := some (pyLower (pyStr req.voiceEnabled)),
             voicePitch := some (pyStr req.pitch),
             voiceRate := some (pyStr req.rate),
             voiceVolume := some (pyStr req.volume) } })
    else (.err 400 "Failed to update voice settings" "Invalid voice provider", st)
  | none => (.err 400 "Failed to update voice settings" "Invalid voice provider", st)

/-! ## POST /api/synthesize (`synthesize_speech`, app.py 110-198) -/

/-- What a synthesis backend call would do: return audio bytes or raise
with a message.  Passed to the handler as an oracle (one for the OpenAI
`speech.create` call, one for the Eleven Labs `generate` call). -/
inductive BackendResult where
  | ok (audio : List Nat)
  | exn (msg : String)
  deriving DecidableEq

/-- Response of the synthesize handler: `file` is `send_file` (HTTP 200
attachment), `jsonErr` a JSON error body with its status and optional
`message` field. -/
inductive SynthResp where
  | file (audio : List Nat) (mimetype downloadName : String)
  | jsonErr (status : Nat) (error : String) (message : Option String)
  deriving DecidableEq

/-- Outcome of one synthesize request: the handler's return value
(`none` when the handler body falls through and returns Python `None`)
and how many times each backend was invoked. -/
structure SynthOutcome where
  response : Option SynthResp
  openaiCalls : Nat
  elevenCalls : Nat
  deriving DecidableEq

/-- The `if provider == 'elevenlabs'` block (app.py 168-191): 500 when
the module-level key variable is falsy, otherwise one `generate` call;
its audio is sent as a 200 attachment with no emptiness check, and an
exception propagates to the outer handler's 500. -/
def elevenlabsBranch (st : ServerState) (sec : BackendResult) (pCalls : Nat) : SynthOutcome :=
  if strTruthy st.elevenLabsKeyVar = false then
    { response := some (.jsonErr 500 "Eleven Labs API key not configured" none),
      openaiCalls := pCalls, elevenCalls := 0 }
  else
    match sec with
    | .ok audio =>
        { response := some (.file audio "audio/mpeg" "speech.mp3"),
          openaiCalls := pCalls, elevenCalls := 1 }
    | .exn m =>
        { response := some (.jsonErr 500 "Voice synthesis failed" (some m)),
          openaiCalls := pCalls, elevenCalls := 1 }

/-- The `except` clause of the OpenAI attempt (app.py 159-166): when the
module-level key variable is truthy, fall through to the Eleven Labs
block; otherwise re-raise into the outer handler's 500. -/
def openaiFailure (st : ServerState) (sec : BackendResult) (m : String) : SynthOutcome :=
  if strTruthy st.elevenLabsKeyVar then elevenlabsBranch st sec 1
  else { response := some (.jsonErr 500 "Voice synthesis failed" (some m)),
         openaiCalls := 1, elevenCalls := 0 }

/-- `synthesize_speech` (app.py 110-198).  Falsy text is rejected with
400 before any backend call.  With provider `openai`, one
`speech.create` call is made: empty content raises
`ValueError("Empty response from OpenAI")` which, like any backend
exception, triggers the fallback; non-empty content is sent as a 200
attachment.  With provider `elevenlabs`, the Eleven Labs block runs
directly.  Any other provider falls off the end of the `try` block and
the handler returns `None`. -/
def synthesize_speech (st : ServerState) (text : Option String) (provider : Option String)
    (primary sec : BackendResult) : SynthOutcome :=
  let prov := provider.getD "openai"
  match text with
  | none =>
      { response := some (.jsonErr 400 "Text is required" none),
        openaiCalls := 0, elevenCalls := 0 }
  | some t =>
    if t = "" then
      { response := some (.jsonErr 400 "Text is required" none),
        openaiCalls := 0, elevenCalls := 0 }
    else if prov = "openai" then
      match primary with
      | .ok audio =>
          if audio = [] then openaiFailure st sec "Empty response from OpenAI"
          else { response := some (.file audio "audio/mpeg" "speech.mp3"),
                 openaiCalls := 1, elevenCalls := 0 }
      | .exn m => openaiFailure st sec m
    else if prov = "elevenlabs" then
      elevenlabsBranch st sec 0
    else
      { response := none, openaiCalls := 0, elevenCalls := 0 }

/-! ## POST /webhooks/rest/webhook (`webhook`, rasa_server.py 15-35) -/

/-- The webhook request body fields, each read with `request.json.get`
and a default.  Metadata is an opaque string-keyed mapping. -/
structure WebhookReq where
  message : Option String
  sender : Option String
  metadata : Option (List (String × String))

/-- Response of the webhook handler: 200 with the agent's response list
unchanged, or an error status with a JSON `error` field. -/
inductive WebhookResp (α : Type) where
  | ok (responses : List α)
  | err (status : Nat) (error : String)
  deriving DecidableEq

/-- `webhook` (rasa_server.py 15-35): defaults the fields, runs
`agent.handle_text` to completion, and returns its response list as
JSON; any exception is answered as `{"error": str(e)}` with 500.  The
agent is an oracle from (message, sender, metadata) to a response list
or a raised message. -/
def webhook {α : Type} (agent : String → String → List (String × String) → Except String (List α))
    (req : WebhookReq) : WebhookResp α :=
  match agent (req.message.getD "") (req.sender.getD "default") (req.metadata.getD []) with
  | .ok rs => .ok rs
  | .error e => .err 500 e

/-! ## Custom actions (`src/server/actions/actions.py`) -/

/-- The slice of a Rasa conversation tracker the actions read:
`tracker.get_latest_entity_values("drink")` as a list, latest first, so
Python's `next(..., None)` is `head?`. -/
structure Tracker where
  drinkEntities : List String
  deriving DecidableEq

/-- Events an action may return to the framework. -/
inductive RasaEvent where
  | slotSet (slot value : String)
  deriving DecidableEq

/-- What one action run produces: the messages uttered through the
dispatcher, in order, and the returned event list. -/
structure ActionResult where
  messages : List String
  events : List RasaEvent
  deriving DecidableEq

/-- `drink = next(tracker.get_latest_entity_values("drink"), None)`. -/
def latestDrink (t : Tracker) : Option String := t.drinkEntities.head?

/-- `ActionCheckInventory.run` (actions.py 6-15): utters its fixed
message and returns no events, without reading the tracker. -/
def action_check_inventory (_t : Tracker) : ActionResult :=
  { messages := ["Let me check the inventory for you..."], events := [] }

/-- `ActionProcessOrder.run` (actions.py 17-31): with a truthy drink
entity, utters the order message and returns `SlotSet("drink", drink)`;
otherwise asks which drink to order. -/
def action_process_order (t : Tracker) : ActionResult :=
  match latestDrink t with
  | some d =>
    if d ≠ "" then
      { messages := ["I\x27ll process your order for " ++ d],
        events := [.slotSet "drink" d] }
    else { messages := ["What drink would you like to order?"], events := [] }
  | none => { messages := ["What drink would you like to order?"], events := [] }

/-- `ActionGetPrice.run` (actions.py 33-47): with a truthy drink entity,
utters the price message; otherwise asks which drink. -/
def action_get_price (t : Tracker) : ActionResult :=
  match latestDrink t with
  | some d =>
    if d ≠ "" then
      { messages := ["Let me check the price of " ++ d ++ " for you"], events := [] }
    else { messages := ["Which drink would you like to know the price of?"], events := [] }
  | none => { messages := ["Which drink would you like to know the price of?"], events := [] }

/-- `ActionGetIngredients.run` (actions.py 49-63): with a truthy drink
entity, utters the ingredients message; otherwise asks which drink. -/
def action_get_ingredients (t : Tracker) : ActionResult :=
  match latestDrink t with
  | some d =>
    if d ≠ "" then
      { messages := ["Let me tell you what goes into a " ++ d], events := [] }
    else { messages := ["Which drink would you like to know the ingredients for?"], events := [] }
  | none => { messages := ["Which drink would you like to know the ingredients for?"], events := [] }

/-! ## Concrete fixtures -/

/-- An environment with no variable set. -/
def envEmpty : Env := ⟨none, none, none, none, none, none⟩

/-- A process started with an empty environment: in particular, no
Eleven Labs key was present at import. -/
def stNoKey : ServerState := initialState envEmpty

/-- A process started with an Eleven Labs key in the environment. -/
def stWithKey : ServerState := initialState ⟨none, none, none, none, none, some "elkey"⟩

/-- A settings-update request that switches to Eleven Labs and submits
a fresh API key. -/
def reqNewKey : UpdateReq :=
  ⟨some "elevenlabs", .jbool true, .jnum 1, .jnum 1, .jnum 1, some "sk-new-key"⟩

/-! ## Lemmas: decimal printing round-trips through `pyFloat` -/

theorem digitChar_isDigit {d : Nat} (h : d < 10) : (digitChar d).isDigit = true := by
  interval_cases d <;> decide

theorem digitVal_digitChar {d : Nat} (h : d < 10) : digitVal (digitChar d) = d := by
  interval_cases d <;> decide

theorem digitsToNat_append (l : List Char) (c : Char) :
    digitsToNat (l ++ [c]) = 10 * digitsToNat l + digitVal c := by
  simp [digitsToNat, List.foldl_append]

theorem natDigitsAux_spec :
    ∀ fuel n, n < fuel →
      (∀ c ∈ natDigitsAux fuel n, c.isDigit = true) ∧
      digitsToNat (natDigitsAux fuel n) = n ∧ natDigitsAux fuel n ≠ [] := by
  intro fuel
  induction fuel with
  | zero => intro n hn; omega
  | succ fuel ih =>
    intro n _
    by_cases h : n < 10
    · refine ⟨?_, ?_, ?_⟩ <;> simp [natDigitsAux, h, digitsToNat]
      · exact digitChar_isDigit h
      · exact digitVal_digitChar h
    · obtain ⟨ihd, ihv, ihne⟩ := ih (n / 10) (by omega)
      have hd10 : n % 10 < 10 := Nat.mod_lt _ (by omega)
      refine ⟨?_, ?_, ?_⟩
      · intro c hc
        simp only [natDigitsAux, if_neg h, List.mem_append, List.mem_singleton] at hc
        rcases hc with hc | hc
        · exact ihd c hc
        · subst hc; exact digitChar_isDigit hd10
      · simp only [natDigitsAux, if_neg h, digitsToNat_append, ihv, digitVal_digitChar hd10]
        omega
      · simp [natDigitsAux, if_neg h]

theorem natDigits_digits (n : Nat) : ∀ c ∈ natDigits n, c.isDigit = true :=
  (natDigitsAux_spec (n + 1) n (by omega)).1

theorem digitsToNat_natDigits (n : Nat) : digitsToNat (natDigits n) = n :=
  (natDigitsAux_spec (n + 1) n (by omega)).2.1

theorem natDigits_ne_nil (n : Nat) : natDigits n ≠ [] :=
  (natDigitsAux_spec (n + 1) n (by omega)).2.2

theorem isPyWs_of_isDigit {c : Char} (h : c.isDigit = true) : isPyWs c = false := by
  rcases Bool.eq_false_or_eq_true (isPyWs c) with hw | hw
  · simp only [isPyWs, Bool.or_eq_true, decide_eq_true_eq] at hw
    rcases hw with ((h1 | h1) | h1) | h1 <;> subst h1 <;> simp [Char.isDigit] at h
  · exact hw

theorem ne_dash_of_isDigit {c : Char} (h : c.isDigit = true) : c ≠ '-' := by
  intro hc; subst hc; simp [Char.isDigit] at h

theorem ne_plus_of_isDigit {c : Char} (h : c.isDigit = true) : c ≠ '+' := by
  intro hc; subst hc; simp [Char.isDigit] at h

theorem ne_underscore_of_isDigit {c : Char} (h : c.isDigit = true) : c ≠ '_' := by
  intro hc; subst hc; simp [Char.isDigit] at h

theorem notExpChar_of_isDigit {c : Char} (h : c.isDigit = true) : notExpChar c = true := by
  have h1 : c ≠ 'e' := by intro hc; subst hc; simp [Char.isDigit] at h
  have h2 : c ≠ 'E' := by intro hc; subst hc; simp [Char.isDigit] at h
  simp [notExpChar, h1, h2]

theorem notDotChar_of_isDigit {c : Char} (h : c.isDigit = true) : notDotChar c = true := by
  have h1 : c ≠ '.' := by intro hc; subst hc; simp [Char.isDigit] at h
  simp [notDotChar, h1]

theorem lowerChar_of_isDigit {c : Char} (h : c.isDigit = true) : lowerChar c = c := by
  unfold Char.isDigit at h
  simp only [Bool.and_eq_true, decide_eq_true_eq] at h
  rw [lowerChar, if_neg]
  rintro ⟨h1, h2⟩
  have h1' : (65 : Nat) ≤ c.val.toNat := h1
  have h2' : c.val.toNat ≤ 57 := h.2
  omega

theorem digitPartRest_cons (c : Char) (cs : List Char) :
    digitPartRest (c :: cs) =
      if c = '_' then
        (match cs with
         | [] => false
         | c2 :: cs2 => c2.isDigit && digitPartRest cs2)
      else c.isDigit && digitPartRest cs := by
  cases cs <;> rfl

theorem digitPartRest_of_digits {l : List Char} (h : ∀ c ∈ l, c.isDigit = true) :
    digitPartRest l = true := by
  induction l with
  | nil => rfl
  | cons c cs ih =>
    have hc := h c (List.mem_cons_self c cs)
    rw [digitPartRest_cons, if_neg (ne_underscore_of_isDigit hc)]
    simp [hc, ih fun x hx => h x (List.mem_cons_of_mem c hx)]

theorem isDigitPart_of_digits {l : List Char} (hne : l ≠ []) (h : ∀ c ∈ l, c.isDigit = true) :
    isDigitPart l = true := by
  cases l with
  | nil => exact absurd rfl hne
  | cons c cs =>
    rw [isDigitPart]
    simp [h c (List.mem_cons_self c cs),
      digitPartRest_of_digits fun x hx => h x (List.mem_cons_of_mem c hx)]

theorem stripUnderscores_of_digits {l : List Char} (h : ∀ c ∈ l, c.isDigit = true) :
    stripUnderscores l = l := by
  unfold stripUnderscores
  rw [List.filter_eq_self]
  intro a ha
  simp [ne_underscore_of_isDigit (h a ha)]

theorem map_eq_self_of_fix {l : List Char} {f : Char → Char} (h : ∀ c ∈ l, f c = c) :
    l.map f = l := by
  induction l with
  | nil => rfl
  | cons c cs ih =>
    simp only [List.map_cons, h c (List.mem_cons_self c cs)]
    rw [ih fun x hx => h x (List.mem_cons_of_mem c hx)]

theorem dropWhile_eq_self_of_all {p : Char → Bool} {l : List Char}
    (h : ∀ c ∈ l, p c = false) : l.dropWhile p = l := by
  cases l with
  | nil => rfl
  | cons a t => simp [List.dropWhile_cons, h a (by simp)]

theorem stripWs_of_all {l : List Char} (h : ∀ c ∈ l, isPyWs c = false) : stripWs l = l := by
  unfold stripWs
  rw [dropWhile_eq_self_of_all h,
      dropWhile_eq_self_of_all (fun c hc => h c (List.mem_reverse.mp hc)),
      List.reverse_reverse]

/-- The core of the round trip: on a non-empty all-digit character
list, the parser takes the plain-decimal path and returns the digits'
value as a finite decimal with exponent 0. -/
theorem pyFloatCore_digits {l : List Char} (hne : l ≠ [])
    (hall : ∀ c ∈ l, c.isDigit = true) (neg : Bool) :
    pyFloatCore neg l =
      some (.finite ⟨(if neg then -(digitsToNat l : Int) else (digitsToNat l : Int)), 0⟩) := by
  have htakeE : l.takeWhile notExpChar = l :=
    List.takeWhile_eq_self_iff.mpr fun c hc => notExpChar_of_isDigit (hall c hc)
  have hdropE : l.dropWhile notExpChar = [] :=
    List.dropWhile_eq_nil_iff.mpr fun c hc => notExpChar_of_isDigit (hall c hc)
  have htakeD : l.takeWhile notDotChar = l :=
    List.takeWhile_eq_self_iff.mpr fun c hc => notDotChar_of_isDigit (hall c hc)
  have hdropD : l.dropWhile notDotChar = [] :=
    List.dropWhile_eq_nil_iff.mpr fun c hc => notDotChar_of_isDigit (hall c hc)
  have hdp : isDigitPart l = true := isDigitPart_of_digits hne hall
  have hsu : stripUnderscores l = l := stripUnderscores_of_digits hall
  have hsn : stripUnderscores ([] : List Char) = [] := rfl
  simp only [pyFloatCore, htakeE, hdropE, htakeD, hdropD, List.tail_nil, List.isEmpty_nil,
    if_true, hsn, List.length_nil, pow_zero, mul_one, hdp, digitPartVal, hsu]
  simp only [digitsToNat, List.foldl_nil, add_zero, mkFinite, Nat.cast_zero, le_refl,
    if_true, sub_zero, Int.toNat_zero, pow_zero, mul_one, ite_true]

theorem pyFloat_natDigits (k : Nat) :
    pyFloat ⟨natDigits k⟩ = some (.finite ⟨(k : Int), 0⟩) := by
  have hall := natDigits_digits k
  obtain ⟨c, t, hct⟩ : ∃ c t, natDigits k = c :: t := by
    cases h : natDigits k with
    | nil => exact absurd h (natDigits_ne_nil k)
    | cons c t => exact ⟨c, t, rfl⟩
  have hd : c.isDigit = true := hall c (by rw [hct]; exact List.mem_cons_self c t)
  have hstrip : stripWs (natDigits k) = natDigits k :=
    stripWs_of_all fun c hc => isPyWs_of_isDigit (hall c hc)
  have hlist : (⟨natDigits k⟩ : String).toList = natDigits k := rfl
  have hhead : (natDigits k).head? = some c := by rw [hct]; rfl
  have hneg : ¬((natDigits k).head? = some '-') := by
    rw [hhead]; intro h; exact ne_dash_of_isDigit hd (by injection h)
  have hplus : ¬((natDigits k).head? = some '+') := by
    rw [hhead]; intro h; exact ne_plus_of_isDigit hd (by injection h)
  have hlow : (natDigits k).map lowerChar = natDigits k :=
    map_eq_self_of_fix fun c hc => lowerChar_of_isDigit (hall c hc)
  have hinf : ¬(natDigits k = "inf".toList ∨ natDigits k = "infinity".toList) := by
    rw [hct]
    rintro (h | h) <;> (injection h with h1 _; subst h1; exact absurd hd (by decide))
  have hnan : ¬(natDigits k = "nan".toList) := by
    rw [hct]; intro h; injection h with h1 _; subst h1; exact absurd hd (by decide)
  have hcore := pyFloatCore_digits (natDigits_ne_nil k) hall false
  simp only [pyFloat, hlist, hstrip,
    if_neg (by tauto : ¬((natDigits k).head? = some '-' ∨ (natDigits k).head? = some '+')),
    hlow, if_neg hinf, if_neg hnan, decide_eq_false hneg]
  rw [hcore]
  rw [digitsToNat_natDigits]
  simp

/-- Printing an integer with Python `str` and parsing it back with
Python `float` recovers the integer exactly: the decimal round trip
behind the settings store. -/
theorem pyFloat_intStr (n : Int) : pyFloat (intStr n) = some (.finite ⟨n, 0⟩) := by
  cases n with
  | ofNat k => exact pyFloat_natDigits k
  | negSucc k =>
    have hall := natDigits_digits (k + 1)
    have hstrip : stripWs ('-' :: natDigits (k + 1)) = '-' :: natDigits (k + 1) := by
      apply stripWs_of_all
      intro c hc
      rcases List.mem_cons.mp hc with h1 | h1
      · subst h1; decide
      · exact isPyWs_of_isDigit (hall c h1)
    have hlist : (intStr (.negSucc k)).toList = '-' :: natDigits (k + 1) := rfl
    have hlow : (natDigits (k + 1)).map lowerChar = natDigits (k + 1) :=
      map_eq_self_of_fix fun c hc => lowerChar_of_isDigit (hall c hc)
    obtain ⟨c, t, hct⟩ : ∃ c t, natDigits (k + 1) = c :: t := by
      cases h : natDigits (k + 1) with
      | nil => exact absurd h (natDigits_ne_nil (k + 1))
      | cons c t => exact ⟨c, t, rfl⟩
    have hd : c.isDigit = true := hall c (by rw [hct]; exact List.mem_cons_self c t)
    have hinf : ¬(natDigits (k + 1) = "inf".toList ∨ natDigits (k + 1) = "infinity".toList) := by
      rw [hct]
      rintro (h | h) <;> (injection h with h1 _; subst h1; exact absurd hd (by decide))
    have hnan : ¬(natDigits (k + 1) = "nan".toList) := by
      rw [hct]; intro h; injection h with h1 _; subst h1; exact absurd hd (by decide)
    have hcore := pyFloatCore_digits (natDigits_ne_nil (k + 1)) hall true
    simp only [pyFloat, hlist, hstrip, List.head?, List.tail, eq_self_iff_true, true_or,
      if_true, hlow, if_neg hinf, if_neg hnan, decide_True]
    rw [hcore]
    rw [digitsToNat_natDigits]
    simp [Int.negSucc_eq]

/-- The decimal value of an integer parsed back from its printed form. -/
theorem Dec10_val_int (n : Int) : Dec10.val ⟨n, 0⟩ = (n : ℚ) := by
  simp [Dec10.val]

/-- The parsed float of an integer's printed form is finite with the
integer's rational value. -/
theorem PyFloat_val_int (n : Int) : (PyFloat.finite ⟨n, 0⟩).val? = some ((n : ℚ)) := by
  simp [PyFloat.val?, Dec10_val_int]

/-! ## Lemmas: outcome classification of the synthesis branches -/

theorem elevenlabsBranch_status {st : ServerState} {sec : BackendResult} {p s : Nat}
    {e : String} {m : Option String}
    (h : (elevenlabsBranch st sec p).response = some (.jsonErr s e m)) : s = 500 := by
  unfold elevenlabsBranch at h
  repeat' split at h
  all_goals simp_all

theorem openaiFailure_status {st : ServerState} {sec : BackendResult} {m0 : String} {s : Nat}
    {e : String} {m : Option String}
    (h : (openaiFailure st sec m0).response = some (.jsonErr s e m)) : s = 500 := by
  unfold openaiFailure at h
  split at h
  · exact elevenlabsBranch_status h
  · simp_all

theorem elevenlabsBranch_file {st : ServerState} {sec : BackendResult} {p : Nat}
    {audio : List Nat} {mt dn : String}
    (h : (elevenlabsBranch st sec p).response = some (.file audio mt dn)) :
    sec = .ok audio ∧ (elevenlabsBranch st sec p).elevenCalls = 1 := by
  unfold elevenlabsBranch at h ⊢
  repeat' split at h
  all_goals simp_all

theorem openaiFailure_file {st : ServerState} {sec : BackendResult} {m0 : String}
    {audio : List Nat} {mt dn : String}
    (h : (openaiFailure st sec m0).response = some (.file audio mt dn)) :
    sec = .ok audio ∧ (openaiFailure st sec m0).elevenCalls = 1 := by
  unfold openaiFailure at h ⊢
  split at h
  case isTrue hk =>
    rw [if_pos hk]
    exact elevenlabsBranch_file h
  case isFalse hk => simp_all

/-! ## Lemmas: settings round trip -/

theorem pyStr_jnum (n : Int) : pyStr (.jnum n) = intStr n := rfl

/-- Storing `str(voice_enabled).lower()` and reading it back through
`.lower() == 'true'` recovers a boolean. -/
theorem voiceEnabled_roundtrip (b : Bool) :
    decide (pyLower (pyLower (pyStr (.jbool b))) = "true") = b := by
  cases b <;> decide

/-- Whenever the GET settings handler answers 200, the provider comes
from the environment (with its default) and the `hasElevenLabs` flag
from the module-level key variable. -/
theorem get_ok_fields {st : ServerState} {c : VoiceConfig}
    (h : get_voice_settings st = .ok c) :
    c.provider = st.env.voiceProvider.getD "elevenlabs" ∧
    c.hasElevenLabs = strTruthy st.elevenLabsKeyVar := by
  unfold get_voice_settings at h
  repeat' split at h
  case h_1 => cases h; exact ⟨rfl, rfl⟩
  all_goals simp_all

/-! ## Claims -/

/-- C1: for a synthesis request with non-empty text and preferred
provider openai, when the primary attempt raises and an Eleven Labs key
is configured (in the module-level variable), the primary backend is
attempted exactly once, the secondary exactly once, and when the
secondary succeeds its audio is the response attachment. -/
theorem C1_fallback_routing (st : ServerState) (t : String) (provider : Option String)
    (m : String) (sec : BackendResult)
    (ht : t ≠ "") (hp : provider.getD "openai" = "openai")
    (hk : strTruthy st.elevenLabsKeyVar = true) :
    (synthesize_speech st (some t) provider (.exn m) sec).openaiCalls = 1 ∧
    (synthesize_speech st (some t) provider (.exn m) sec).elevenCalls = 1 ∧
    ∀ audio, sec = .ok audio →
      (synthesize_speech st (some t) provider (.exn m) sec).response =
        some (.file audio "audio/mpeg" "speech.mp3") := by
  cases sec <;> simp [synthesize_speech, openaiFailure, elevenlabsBranch, ht, hp, hk]

/-- C1 witness: fallback on a concrete failing primary with a
configured key; the secondary's bytes come back as the attachment. -/
theorem C1_fallback_routing_witness :
    (synthesize_speech stWithKey (some "hello") none (.exn "boom") (.ok [1, 2])).openaiCalls = 1 ∧
    (synthesize_speech stWithKey (some "hello") none (.exn "boom") (.ok [1, 2])).elevenCalls = 1 ∧
    (synthesize_speech stWithKey (some "hello") none (.exn "boom") (.ok [1, 2])).response =
      some (.file [1, 2] "audio/mpeg" "speech.mp3") := by
  have h := C1_fallback_routing stWithKey "hello" none "boom" (.ok [1, 2])
    (by decide) (by decide) (by decide)
  exact ⟨h.1, h.2.1, h.2.2 [1, 2] rfl⟩

/-- C2: a synthesis request whose text field is empty or absent is
answered with HTTP 400 and an error payload, and neither backend is
invoked. -/
theorem C2_empty_text_rejected (st : ServerState) (text provider : Option String)
    (primary sec : BackendResult) (h : text = none ∨ text = some "") :
    synthesize_speech st text provider primary sec =
      ⟨some (.jsonErr 400 "Text is required" none), 0, 0⟩ := by
  rcases h with h | h <;> subst h <;> rfl

/-- C2 witness: the empty-text request on a concrete state with both
backends ready to answer. -/
theorem C2_empty_text_rejected_witness :
    (some "" = (none : Option String) ∨ some "" = some "") ∧
    synthesize_speech stNoKey (some "") (some "openai") (.ok [1]) (.ok [2]) =
      ⟨some (.jsonErr 400 "Text is required" none), 0, 0⟩ :=
  ⟨Or.inr rfl,
   C2_empty_text_rejected stNoKey (some "") (some "openai") (.ok [1]) (.ok [2]) (Or.inr rfl)⟩

/-- C3 counterexample: with the Eleven Labs provider selected and a key
configured, a zero-byte audio result from that backend is sent to the
caller as an HTTP 200 `speech.mp3` attachment of zero bytes — the
elevenlabs branch has no emptiness check, so this failure does not
surface as an error payload. -/
theorem C3_zero_byte_counterexample :
    synthesize_speech stWithKey (some "hello") (some "elevenlabs") (.ok [1]) (.ok []) =
      ⟨some (.file [] "audio/mpeg" "speech.mp3"), 0, 1⟩ := by decide

/-- C3 amended: every JSON error payload the synthesize handler
produces carries status 400 or 500 (missing input, missing credentials,
backend exceptions and an empty primary result all surface this way),
and the only way a zero-byte audio body can be returned as a 200
success is the Eleven Labs `generate` call itself returning zero
bytes. -/
theorem C3_failures_surface_amended :
    (∀ (st : ServerState) (text provider : Option String) (primary sec : BackendResult)
        (s : Nat) (e : String) (m : Option String),
      (synthesize_speech st text provider primary sec).response = some (.jsonErr s e m) →
      s = 400 ∨ s = 500) ∧
    (∀ (st : ServerState) (text provider : Option String) (primary sec : BackendResult)
        (audio : List Nat) (mt dn : String),
      (synthesize_speech st text provider primary sec).response = some (.file audio mt dn) →
      audio = [] →
      sec = .ok [] ∧ (synthesize_speech st text provider primary sec).elevenCalls = 1) := by
  constructor
  · intro st text provider primary sec s e m h
    rcases text with _ | t
    · simp [synthesize_speech] at h
      simp [h]
    · by_cases ht : t = ""
      · simp [synthesize_speech, ht] at h
        simp [h]
      · by_cases hp1 : provider.getD "openai" = "openai"
        · rcases primary with a | m1
          · by_cases ha : a = []
            · simp only [synthesize_speech, if_neg ht, if_pos hp1, if_pos ha] at h
              exact Or.inr (openaiFailure_status h)
            · simp [synthesize_speech, ht, hp1, ha] at h
          · simp only [synthesize_speech, if_neg ht, if_pos hp1] at h
            exact Or.inr (openaiFailure_status h)
        · by_cases hp2 : provider.getD "openai" = "elevenlabs"
          · simp only [synthesize_speech, if_neg ht, if_neg hp1, if_pos hp2] at h
            exact Or.inr (elevenlabsBranch_status h)
          · simp [synthesize_speech, ht, hp1, hp2] at h
  · intro st text provider primary sec audio mt dn h ha
    subst ha
    rcases text with _ | t
    · simp [synthesize_speech] at h
    · by_cases ht : t = ""
      · simp [synthesize_speech, ht] at h
      · by_cases hp1 : provider.getD "openai" = "openai"
        · rcases primary with a | m1
          · by_cases hae : a = []
            · simp only [synthesize_speech, if_neg ht, if_pos hp1, if_pos hae] at h ⊢
              exact openaiFailure_file h
            · simp [synthesize_speech, ht, hp1, hae] at h
          · simp only [synthesize_speech, if_neg ht, if_pos hp1] at h ⊢
            exact openaiFailure_file h
        · by_cases hp2 : provider.getD "openai" = "elevenlabs"
          · simp only [synthesize_speech, if_neg ht, if_neg hp1, if_pos hp2] at h ⊢
            exact elevenlabsBranch_file h
          · simp [synthesize_speech, ht, hp1, hp2] at h

/-- C3 amended witness: both parts applied at concrete requests — a
400 from the missing-text path, and the zero-byte 200 traced back to
the Eleven Labs call. -/
theorem C3_failures_surface_amended_witness :
    ((400 : Nat) = 400 ∨ (400 : Nat) = 500) ∧
    (BackendResult.ok ([] : List Nat) = .ok [] ∧
      (synthesize_speech stWithKey (some "x") (some "elevenlabs") (.ok [1]) (.ok [])).elevenCalls = 1) :=
  ⟨C3_failures_surface_amended.1 stNoKey none none (.ok [1]) (.ok [2]) 400 "Text is required" none
      (by decide),
   C3_failures_surface_amended.2 stWithKey (some "x") (some "elevenlabs") (.ok [1]) (.ok [])
      [] "audio/mpeg" "speech.mp3" (by decide) rfl⟩

/-- C9: a synthesize request with non-empty text and a provider that is
neither openai nor elevenlabs falls through both branches: the handler
body produces no response value (Python `None`) and no backend is
invoked, so the caller gets a framework-level error instead of the
documented JSON error payload. -/
theorem C9_unknown_provider_returns_none (st : ServerState) (t p : String)
    (primary sec : BackendResult)
    (ht : t ≠ "") (hp1 : p ≠ "openai") (hp2 : p ≠ "elevenlabs") :
    synthesize_speech st (some t) (some p) primary sec = ⟨none, 0, 0⟩ := by
  simp [synthesize_speech, ht, hp1, hp2]

/-- C9 witness: the `webspeech` provider on a concrete request. -/
theorem C9_unknown_provider_returns_none_witness :
    ("hello" ≠ "" ∧ "webspeech" ≠ "openai" ∧ "webspeech" ≠ "elevenlabs") ∧
    synthesize_speech stNoKey (some "hello") (some "webspeech") (.ok [1]) (.ok [2]) =
      ⟨none, 0, 0⟩ :=
  ⟨⟨by decide, by decide, by decide⟩,
   C9_unknown_provider_returns_none stNoKey "hello" "webspeech" (.ok [1]) (.ok [2])
     (by decide) (by decide) (by decide)⟩

/-- C4 counterexample: `provider="elevenlabs"` with the blank key `""`
is not rejected — `if api_key:` skips the key validation for a falsy
key — so the handler answers 200 and overwrites the stored settings,
contradicting the claim that a key-requiring provider with a blank key
yields 400 with state unchanged. -/
theorem C4_blank_key_counterexample :
    (update_voice_settings stNoKey
        ⟨some "elevenlabs", .jbool true, .jnum 1, .jnum 1, .jnum 1, some ""⟩).1 =
      .ok "elevenlabs" (.jbool true) (.jnum 1) (.jnum 1) (.jnum 1) false ∧
    (update_voice_settings stNoKey
        ⟨some "elevenlabs", .jbool true, .jnum 1, .jnum 1, .jnum 1, some ""⟩).2 ≠ stNoKey := by
  decide

/-- C4 amended: a settings update whose provider is outside the enum,
or whose provider is elevenlabs with a supplied non-empty but
whitespace-only key, is rejected with HTTP 400 and an error payload and
leaves the whole server state untouched.  (An absent or empty-string
key with provider elevenlabs instead passes validation and the update
succeeds without storing a key.) -/
theorem C4_validation_leaves_state_amended (st : ServerState) (req : UpdateReq)
    (h : (∀ p, req.provider = some p → p ≠ "elevenlabs" ∧ p ≠ "webspeech") ∨
         (req.provider = some "elevenlabs" ∧
           ∃ k, req.apiKey = some k ∧ k ≠ "" ∧ pyStrip k = "")) :
    (∃ m, (update_voice_settings st req).1 = .err 400 "Failed to update voice settings" m) ∧
    (update_voice_settings st req).2 = st := by
  rcases h with h | ⟨hp, k, hk, hkne, hks⟩
  · rcases hreq : req.provider with _ | p
    · simp [update_voice_settings, hreq]
    · have hne := h p hreq
      simp [update_voice_settings, hreq, hne.1, hne.2]
  · have htr : strTruthy req.apiKey = true := by simp [hk, strTruthy, hkne]
    simp only [update_voice_settings, hp, true_or, if_true]
    rw [hk]
    simp [applyKeyUpdate, hks, strTruthy, hkne]

/-- C4 amended witness: the invalid provider on a concrete state. -/
theorem C4_validation_leaves_state_amended_witness :
    (∃ m, (update_voice_settings stNoKey
        ⟨some "invalid", .jnull, .jnull, .jnull, .jnull, none⟩).1 =
      .err 400 "Failed to update voice settings" m) ∧
    (update_voice_settings stNoKey
        ⟨some "invalid", .jnull, .jnull, .jnull, .jnull, none⟩).2 = stNoKey :=
  C4_validation_leaves_state_amended stNoKey _
    (Or.inl (fun p hp => by
      injection hp with h
      subst h
      exact ⟨by decide, by decide⟩))

/-- C5 counterexample: starting from a process imported with no Eleven
Labs key, a successful settings update that writes a new key into the
environment (and `set_api_key`) does not make subsequent requests see
it — a following synthesis request with a failing primary does not
fall back (the credential check consults the stale module variable,
so no generate call and a 500), and a following GET still reports
`hasElevenLabs = false`. -/
theorem C5_stale_credential_counterexample :
    (update_voice_settings stNoKey reqNewKey).2.env.elevenLabsApiKey = some "sk-new-key" ∧
    (update_voice_settings stNoKey reqNewKey).2.libApiKey = some "sk-new-key" ∧
    synthesize_speech (update_voice_settings stNoKey reqNewKey).2
        (some "hi") none (.exn "boom") (.ok [7]) =
      ⟨some (.jsonErr 500 "Voice synthesis failed" (some "boom")), 1, 0⟩ ∧
    get_voice_settings (update_voice_settings stNoKey reqNewKey).2 =
      .ok ⟨"elevenlabs", true, .finite ⟨1, 0⟩, .finite ⟨1, 0⟩, .finite ⟨1, 0⟩, false⟩ := by
  decide

/-- C5 amended: provider, enabled flag and pitch/rate/volume are read
from the environment at request time, so a settings update to them
takes effect immediately; a key update is written to the environment
and to the Eleven Labs library, but the credential presence check
that gates the fallback, the elevenlabs branch and the
`hasElevenLabs` flag reads the module-level variable captured at
process start, which the update never refreshes — so a key written
after start is not observed by those checks. -/
theorem C5_request_time_reads_amended (st : ServerState) (ve pv rv vv : JVal) (k : String)
    (hks : pyStrip k ≠ "") :
    (update_voice_settings st ⟨some "elevenlabs", ve, pv, rv, vv, some k⟩).2.env.elevenLabsApiKey =
      some k ∧
    (update_voice_settings st ⟨some "elevenlabs", ve, pv, rv, vv, some k⟩).2.libApiKey = some k ∧
    (update_voice_settings st ⟨some "elevenlabs", ve, pv, rv, vv, some k⟩).2.elevenLabsKeyVar =
      st.elevenLabsKeyVar ∧
    (update_voice_settings st ⟨some "elevenlabs", ve, pv, rv, vv, some k⟩).2.env.voiceProvider =
      some "elevenlabs" ∧
    (∀ c, get_voice_settings
        (update_voice_settings st ⟨some "elevenlabs", ve, pv, rv, vv, some k⟩).2 = .ok c →
      c.provider = "elevenlabs" ∧ c.hasElevenLabs = strTruthy st.elevenLabsKeyVar) ∧
    (strTruthy st.elevenLabsKeyVar = false →
      ∀ t m sec, t ≠ "" →
        synthesize_speech (update_voice_settings st ⟨some "elevenlabs", ve, pv, rv, vv, some k⟩).2
            (some t) none (.exn m) sec =
          ⟨some (.jsonErr 500 "Voice synthesis failed" (some m)), 1, 0⟩) := by
  have hkne : k ≠ "" := by
    intro h
    apply hks
    rw [h]
    decide
  have htr : strTruthy (some k) = true := by simp [strTruthy, hkne]
  simp only [update_voice_settings, true_or, if_true]
  simp only [applyKeyUpdate, htr, hks, and_true, eq_self_iff_true, if_true, if_neg hks,
    Option.getD_some]
  refine ⟨rfl, rfl, rfl, rfl, ?_, ?_⟩
  · intro c hc
    have hf := get_ok_fields hc
    simp_all
  · intro hkey t m sec ht
    simp [synthesize_speech, openaiFailure, ht, hkey]

/-- C5 amended witness: the update applied on the key-less start state;
the environment holds the new key, the module variable is still unset,
and the next synthesis request does not fall back. -/
theorem C5_request_time_reads_amended_witness :
    (update_voice_settings stNoKey
        ⟨some "elevenlabs", .jnull, .jnull, .jnull, .jnull, some "sk2"⟩).2.env.elevenLabsApiKey =
      some "sk2" ∧
    (update_voice_settings stNoKey
        ⟨some "elevenlabs", .jnull, .jnull, .jnull, .jnull, some "sk2"⟩).2.elevenLabsKeyVar =
      stNoKey.elevenLabsKeyVar ∧
    synthesize_speech
        (update_voice_settings stNoKey
          ⟨some "elevenlabs", .jnull, .jnull, .jnull, .jnull, some "sk2"⟩).2
        (some "hi") none (.exn "boom") (.ok [7]) =
      ⟨some (.jsonErr 500 "Voice synthesis failed" (some "boom")), 1, 0⟩ := by
  have h := C5_request_time_reads_amended stNoKey .jnull .jnull .jnull .jnull "sk2" (by decide)
  exact ⟨h.1, h.2.2.1, h.2.2.2.2.2 (by decide) "hi" "boom" (.ok [7]) (by decide)⟩

/-- C6 counterexample: a successful POST that omits voiceEnabled,
pitch, rate and volume (they default to `None`) answers 200, but the
immediately following GET answers 500 — `float("None")` raises — so
the read-after-write round trip fails for this successful POST. -/
theorem C6_none_settings_counterexample :
    (update_voice_settings stNoKey
        ⟨some "webspeech", .jnull, .jnull, .jnull, .jnull, none⟩).1 =
      .ok "webspeech" .jnull .jnull .jnull .jnull false ∧
    get_voice_settings (update_voice_settings stNoKey
        ⟨some "webspeech", .jnull, .jnull, .jnull, .jnull, none⟩).2 =
      .err 500 "Failed to fetch voice settings" := by
  decide

/-- C6 amended: for a successful POST whose voiceEnabled is a boolean
and whose pitch, rate and volume are numbers, the immediately
following GET answers 200 with provider, voiceEnabled, pitch, rate and
volume equal to the submitted values. -/
theorem C6_read_after_write_amended (st : ServerState) (p : String) (b : Bool)
    (np nr nv : Int) (apiKey : Option String)
    (hp : p = "elevenlabs" ∨ p = "webspeech")
    (hkey : ∃ st1, applyKeyUpdate st p apiKey = .ok st1) :
    (update_voice_settings st ⟨some p, .jbool b, .jnum np, .jnum nr, .jnum nv, apiKey⟩).1 =
      .ok p (.jbool b) (.jnum np) (.jnum nr) (.jnum nv) (strTruthy st.elevenLabsKeyVar) ∧
    ∃ c, get_voice_settings
        (update_voice_settings st ⟨some p, .jbool b, .jnum np, .jnum nr, .jnum nv, apiKey⟩).2 =
        .ok c ∧
      c.provider = p ∧ c.voiceEnabled = b ∧
      c.pitch.val? = some ((np : ℚ)) ∧ c.rate.val? = some ((nr : ℚ)) ∧
      c.volume.val? = some ((nv : ℚ)) := by
  obtain ⟨st1, hst1⟩ := hkey
  simp only [update_voice_settings, if_pos hp, hst1]
  refine ⟨trivial, ?_⟩
  unfold get_voice_settings
  simp only [Option.getD_some, pyStr_jnum, pyFloat_intStr]
  exact ⟨_, rfl, rfl, voiceEnabled_roundtrip b,
    PyFloat_val_int np, PyFloat_val_int nr, PyFloat_val_int nv⟩

/-- C6 amended witness: a concrete boolean/numeric update and its
read-back. -/
theorem C6_read_after_write_amended_witness :
    (update_voice_settings stNoKey
        ⟨some "webspeech", .jbool true, .jnum 2, .jnum 3, .jnum (-4), none⟩).1 =
      .ok "webspeech" (.jbool true) (.jnum 2) (.jnum 3) (.jnum (-4))
        (strTruthy stNoKey.elevenLabsKeyVar) ∧
    ∃ c, get_voice_settings (update_voice_settings stNoKey
        ⟨some "webspeech", .jbool true, .jnum 2, .jnum 3, .jnum (-4), none⟩).2 = .ok c ∧
      c.provider = "webspeech" ∧ c.voiceEnabled = true ∧
      c.pitch.val? = some (((2 : Int) : ℚ)) ∧ c.rate.val? = some (((3 : Int) : ℚ)) ∧
      c.volume.val? = some (((-4 : Int) : ℚ)) :=
  C6_read_after_write_amended stNoKey "webspeech" true 2 3 (-4) none
    (Or.inr rfl) ⟨stNoKey, rfl⟩

/-- C7 counterexample: the inventory-check action produces the same
fixed acknowledgement whether or not a drink entity is present — it
neither extracts the entity nor asks a clarifying question when the
entity is absent. -/
theorem C7_inventory_counterexample :
    action_check_inventory ⟨["mojito"]⟩ = action_check_inventory ⟨[]⟩ ∧
    (action_check_inventory ⟨[]⟩).messages = ["Let me check the inventory for you..."] ∧
    (action_check_inventory ⟨[]⟩).events = [] := by decide

/-- C7 amended: three of the four stub actions (order processing,
price lookup, ingredients lookup) extract the latest drink entity when
a truthy one is present and emit the templated message naming it —
order processing additionally returns a `SlotSet` event recording the
drink — and ask their single static clarifying question otherwise;
the inventory-check action does not consult the tracker and
unconditionally emits its static acknowledgement with no events.
None performs any further lookup, persistence or computation. -/
theorem C7_stub_actions_amended (t : Tracker) :
    action_check_inventory t = ⟨["Let me check the inventory for you..."], []⟩ ∧
    (∀ d, latestDrink t = some d → d ≠ "" →
      action_process_order t =
        ⟨["I\x27ll process your order for " ++ d], [.slotSet "drink" d]⟩ ∧
      action_get_price t = ⟨["Let me check the price of " ++ d ++ " for you"], []⟩ ∧
      action_get_ingredients t = ⟨["Let me tell you what goes into a " ++ d], []⟩) ∧
    ((latestDrink t = none ∨ latestDrink t = some "") →
      action_process_order t = ⟨["What drink would you like to order?"], []⟩ ∧
      action_get_price t = ⟨["Which drink would you like to know the price of?"], []⟩ ∧
      action_get_ingredients t =
        ⟨["Which drink would you like to know the ingredients for?"], []⟩) := by
  refine ⟨rfl, ?_, ?_⟩
  · intro d hd hne
    simp [action_process_order, action_get_price, action_get_ingredients, hd, hne]
  · intro h
    rcases h with h | h <;>
      simp [action_process_order, action_get_price, action_get_ingredients, h]

/-- C7 amended witness: the three entity-reading actions on a tracker
carrying the drink `mojito`. -/
theorem C7_stub_actions_amended_witness :
    action_process_order ⟨["mojito"]⟩ =
      ⟨["I\x27ll process your order for " ++ "mojito"], [.slotSet "drink" "mojito"]⟩ ∧
    action_get_price ⟨["mojito"]⟩ =
      ⟨["Let me check the price of " ++ "mojito" ++ " for you"], []⟩ ∧
    action_get_ingredients ⟨["mojito"]⟩ =
      ⟨["Let me tell you what goes into a " ++ "mojito"], []⟩ :=
  (C7_stub_actions_amended ⟨["mojito"]⟩).2.1 "mojito" rfl (by decide)

/-- C8: the webhook handler converts an agent exception into HTTP 500
with a JSON `error` field carrying the exception text, and otherwise
returns HTTP 200 with the agent's response list unmodified. -/
theorem C8_webhook_error_handling (α : Type)
    (agent : String → String → List (String × String) → Except String (List α))
    (req : WebhookReq) :
    (∀ e, agent (req.message.getD "") (req.sender.getD "default") (req.metadata.getD []) =
        .error e → webhook agent req = .err 500 e) ∧
    (∀ rs, agent (req.message.getD "") (req.sender.getD "default") (req.metadata.getD []) =
        .ok rs → webhook agent req = .ok rs) := by
  constructor <;> intro x hx <;> simp [webhook, hx]

/-- C8 witness: a raising agent and a succeeding agent on a concrete
request. -/
theorem C8_webhook_error_handling_witness :
    webhook (fun _ _ _ => (Except.error "agent boom" : Except String (List Nat)))
        ⟨some "hi", some "u1", none⟩ = .err 500 "agent boom" ∧
    webhook (fun _ _ _ => (Except.ok [0, 1] : Except String (List Nat)))
        ⟨some "hi", some "u1", none⟩ = .ok [0, 1] :=
  ⟨(C8_webhook_error_handling Nat _ _).1 "agent boom" rfl,
   (C8_webhook_error_handling Nat _ _).2 [0, 1] rfl⟩

end BevPro
